import Mathlib

/-!
Verification of the persistence core of the chatalyst repository
(`src-tauri/src/images.rs` and `src-tauri/src/lib.rs`).

The Rust code is shallowly embedded: the migration list `get_migrations`
is transcribed with its exact SQL strings, `calculate_hash` (SHA-256 with
lowercase-hex formatting) is implemented over byte lists with explicit
`% 2^32` arithmetic, and `calculate_image_hash` wraps it in `Except`.
-/

set_option maxRecDepth 100000

namespace Chatalyst

/-- Mirror of `tauri_plugin_sql::MigrationKind` (variants `Up` and `Down`). -/
inductive MigrationKind where
  | up : MigrationKind
  | down : MigrationKind
deriving DecidableEq, Repr

/-- Mirror of `tauri_plugin_sql::Migration`: a version (`i64`), a
description, the SQL text and a kind. -/
structure Migration where
  version : Int
  description : String
  sql : String
  kind : MigrationKind
deriving DecidableEq, Repr

/-- Embedding of `get_migrations` from `src-tauri/src/images.rs`, with the
SQL strings copied verbatim from the Rust string literals. -/
def get_migrations : List Migration :=
  [ { version := 1
    , description := "create_images_table"
    , sql := "CREATE TABLE images (
                id INTEGER PRIMARY KEY AUTOINCREMENT,
                hash TEXT UNIQUE NOT NULL,
                data BLOB NOT NULL,
                mime_type TEXT NOT NULL,
                size INTEGER NOT NULL,
                created_at DATETIME DEFAULT CURRENT_TIMESTAMP
            );"
    , kind := MigrationKind.up }
  , { version := 2
    , description := "create_image_references_table"
    , sql := "CREATE TABLE image_references (
                id INTEGER PRIMARY KEY AUTOINCREMENT,
                image_id INTEGER NOT NULL,
                conversation_id TEXT NOT NULL,
                created_at DATETIME DEFAULT CURRENT_TIMESTAMP,
                FOREIGN KEY (image_id) REFERENCES images (id) ON DELETE CASCADE,
                UNIQUE(image_id, conversation_id)
            );"
    , kind := MigrationKind.up }
  , { version := 3
    , description := "create_images_hash_index"
    , sql := "CREATE INDEX idx_images_hash ON images(hash);"
    , kind := MigrationKind.up }
  , { version := 4
    , description := "create_image_references_conversation_index"
    , sql := "CREATE INDEX idx_image_references_conversation ON image_references(conversation_id);"
    , kind := MigrationKind.up }
  , { version := 5
    , description := "create_app_settings_table"
    , sql := "CREATE TABLE app_settings (
                id INTEGER PRIMARY KEY AUTOINCREMENT,
                key TEXT UNIQUE NOT NULL,
                value TEXT NOT NULL,
                created_at DATETIME DEFAULT CURRENT_TIMESTAMP,
                updated_at DATETIME DEFAULT CURRENT_TIMESTAMP
            );"
    , kind := MigrationKind.up }
  , { version := 6
    , description := "create_conversations_table"
    , sql := "CREATE TABLE conversations (
                id TEXT PRIMARY KEY,
                title TEXT NOT NULL,
                model TEXT NOT NULL,
                enabled_tools TEXT, -- JSON string for tool configuration
                archived BOOLEAN DEFAULT FALSE,
                archived_at DATETIME,
                created_at DATETIME NOT NULL,
                updated_at DATETIME NOT NULL
            );"
    , kind := MigrationKind.up }
  , { version := 7
    , description := "create_conversation_messages_table"
    , sql := "CREATE TABLE conversation_messages (
                id TEXT PRIMARY KEY,
                conversation_id TEXT NOT NULL,
                role TEXT NOT NULL, -- 'user' or 'assistant'
                content TEXT NOT NULL,
                timestamp INTEGER NOT NULL,
                model TEXT,
                image_ids TEXT, -- JSON array of image IDs
                created_at DATETIME DEFAULT CURRENT_TIMESTAMP,
                FOREIGN KEY (conversation_id) REFERENCES conversations (id) ON DELETE CASCADE
            );"
    , kind := MigrationKind.up }
  , { version := 8
    , description := "create_models_cache_table"
    , sql := "CREATE TABLE models_cache (
                id INTEGER PRIMARY KEY AUTOINCREMENT,
                provider_key TEXT UNIQUE NOT NULL, -- provider:baseURL combination
                models_data TEXT NOT NULL, -- JSON string of models array
                timestamp INTEGER NOT NULL,
                created_at DATETIME DEFAULT CURRENT_TIMESTAMP,
                updated_at DATETIME DEFAULT CURRENT_TIMESTAMP
            );"
    , kind := MigrationKind.up }
  , { version := 9
    , description := "create_favorite_models_table"
    , sql := "CREATE TABLE favorite_models (
                id INTEGER PRIMARY KEY AUTOINCREMENT,
                provider_key TEXT NOT NULL, -- provider:baseURL combination
                model_id TEXT NOT NULL,
                created_at DATETIME DEFAULT CURRENT_TIMESTAMP,
                UNIQUE(provider_key, model_id)
            );"
    , kind := MigrationKind.up }
  , { version := 10
    , description := "create_migration_metadata_table"
    , sql := "CREATE TABLE migration_metadata (
                id INTEGER PRIMARY KEY AUTOINCREMENT,
                key TEXT UNIQUE NOT NULL,
                value TEXT NOT NULL,
                created_at DATETIME DEFAULT CURRENT_TIMESTAMP,
                updated_at DATETIME DEFAULT CURRENT_TIMESTAMP
            );"
    , kind := MigrationKind.up }
  , { version := 11
    , description := "create_indexes"
    , sql := "CREATE INDEX idx_conversations_archived ON conversations(archived);
                  CREATE INDEX idx_conversations_updated_at ON conversations(updated_at);
                  CREATE INDEX idx_conversation_messages_conversation_id ON conversation_messages(conversation_id);
                  CREATE INDEX idx_conversation_messages_timestamp ON conversation_messages(timestamp);
                  CREATE INDEX idx_models_cache_timestamp ON models_cache(timestamp);
                  CREATE INDEX idx_favorite_models_provider_key ON favorite_models(provider_key);"
    , kind := MigrationKind.up }
  , { version := 12
    , description := "add_tool_fields_to_conversation_messages"
    , sql := "ALTER TABLE conversation_messages ADD COLUMN tool_name TEXT;
                  ALTER TABLE conversation_messages ADD COLUMN tool_call TEXT; -- JSON for tool call arguments
                  ALTER TABLE conversation_messages ADD COLUMN tool_result TEXT; -- JSON for tool result"
    , kind := MigrationKind.up }
  ]

/-- The migration at position `n` of `get_migrations` (a dummy migration
past the end). -/
def migAt (n : Nat) : Migration :=
  get_migrations.getD n ⟨0, "", "", MigrationKind.up⟩

/-- `listStartsWith s p` holds when the char list `p` occurs at the head
of `s`. -/
def listStartsWith : List Char → List Char → Bool
  | _, [] => true
  | [], _ :: _ => false
  | a :: s, b :: p => a == b && listStartsWith s p

/-- `listHasSub s p` holds when `p` occurs contiguously somewhere in `s`. -/
def listHasSub : List Char → List Char → Bool
  | [], p => listStartsWith [] p
  | a :: s, p => listStartsWith (a :: s) p || listHasSub s p

/-- Substring test on strings, used to state facts about SQL text. -/
def sqlHasSub (s pat : String) : Bool :=
  listHasSub s.data pat.data

/-! ### SHA-256, as used by `calculate_hash`

`calculate_hash` in `images.rs` feeds the bytes to `sha2::Sha256` and
formats the 32-byte digest with `{:x}`, which prints each byte as two
lowercase hex digits.  The hash is embedded here over `List Nat` (bytes),
with 32-bit words represented as `Nat` and every word-level operation
reduced modulo `2^32 = 4294967296`. -/

/-- Addition of two 32-bit words, modulo `2^32`. -/
def add32 (a b : Nat) : Nat := (a + b) % 4294967296

/-- Right rotation of a 32-bit word by `n` places. -/
def rotr32 (n x : Nat) : Nat :=
  Nat.lor (x >>> n) ((x <<< (32 - n)) % 4294967296)

/-- The SHA-256 small sigma-0 function (rotations 7 and 18, shift 3). -/
def ssig0 (x : Nat) : Nat :=
  Nat.xor (Nat.xor (rotr32 7 x) (rotr32 18 x)) (x >>> 3)

/-- The SHA-256 small sigma-1 function (rotations 17 and 19, shift 10). -/
def ssig1 (x : Nat) : Nat :=
  Nat.xor (Nat.xor (rotr32 17 x) (rotr32 19 x)) (x >>> 10)

/-- The SHA-256 big sigma-0 function (rotations 2, 13, 22). -/
def bsig0 (x : Nat) : Nat :=
  Nat.xor (Nat.xor (rotr32 2 x) (rotr32 13 x)) (rotr32 22 x)

/-- The SHA-256 big sigma-1 function (rotations 6, 11, 25). -/
def bsig1 (x : Nat) : Nat :=
  Nat.xor (Nat.xor (rotr32 6 x) (rotr32 11 x)) (rotr32 25 x)

/-- The SHA-256 choice function `(x AND y) XOR ((NOT x) AND z)` on 32-bit
words (`NOT` is complement within 32 bits). -/
def chFn (x y z : Nat) : Nat :=
  Nat.xor (Nat.land x y) (Nat.land (Nat.xor x 4294967295) z)

/-- The SHA-256 majority function. -/
def majFn (x y z : Nat) : Nat :=
  Nat.xor (Nat.xor (Nat.land x y) (Nat.land x z)) (Nat.land y z)

/-- The 64 SHA-256 round constants (written in decimal). -/
def K : List Nat :=
  [1116352408, 1899447441, 3049323471, 3921009573,
   961987163, 1508970993, 2453635748, 2870763221,
   3624381080, 310598401, 607225278, 1426881987,
   1925078388, 2162078206, 2614888103, 3248222580,
   3835390401, 4022224774, 264347078, 604807628,
   770255983, 1249150122, 1555081692, 1996064986,
   2554220882, 2821834349, 2952996808, 3210313671,
   3336571891, 3584528711, 113926993, 338241895,
   666307205, 773529912, 1294757372, 1396182291,
   1695183700, 1986661051, 2177026350, 2456956037,
   2730485921, 2820302411, 3259730800, 3345764771,
   3516065817, 3600352804, 4094571909, 275423344,
   430227734, 506948616, 659060556, 883997877,
   958139571, 1322822218, 1537002063, 1747873779,
   1955562222, 2024104815, 2227730452, 2361852424,
   2428436474, 2756734187, 3204031479, 3329325298]

/-- The eight 32-bit working variables of the SHA-256 compression
function. -/
structure Hash8 where
  a : Nat
  b : Nat
  c : Nat
  d : Nat
  e : Nat
  f : Nat
  g : Nat
  h : Nat
deriving Repr

/-- The SHA-256 initial hash value (written in decimal). -/
def initH : Hash8 :=
  ⟨1779033703, 3144134277, 1013904242, 2773480762,
   1359893119, 2600822924, 528734635, 1541459225⟩

/-- The eight big-endian bytes of a 64-bit length field. -/
def lenBytes8 (n : Nat) : List Nat :=
  [n / 72057594037927936 % 256, n / 281474976710656 % 256,
   n / 1099511627776 % 256, n / 4294967296 % 256,
   n / 16777216 % 256, n / 65536 % 256, n / 256 % 256, n % 256]

/-- SHA-256 padding: append `0x80`, then zeros to 56 mod 64 bytes, then
the bit length as eight big-endian bytes. -/
def padMessage (msg : List Nat) : List Nat :=
  msg ++ 128 :: (List.replicate ((120 - (msg.length + 1) % 64) % 64) 0
    ++ lenBytes8 (8 * msg.length))

/-- Group bytes into big-endian 32-bit words, four bytes per word. -/
def toWords : List Nat → List Nat
  | a :: b :: c :: d :: rest =>
      (((a * 256 + b) * 256 + c) * 256 + d) :: toWords rest
  | _ => []

/-- Split a word list into blocks of sixteen words (a padded message
always yields a multiple of sixteen words). -/
def toBlocks : List Nat → List (List Nat)
  | w0 :: w1 :: w2 :: w3 :: w4 :: w5 :: w6 :: w7 ::
    w8 :: w9 :: w10 :: w11 :: w12 :: w13 :: w14 :: w15 :: rest =>
      [w0, w1, w2, w3, w4, w5, w6, w7,
       w8, w9, w10, w11, w12, w13, w14, w15] :: toBlocks rest
  | _ => []

/-- One message-schedule extension step on the reversed word list:
`w[t] = ssig1 w[t-2] + w[t-7] + ssig0 w[t-15] + w[t-16]`. -/
def schedStep (r : List Nat) : List Nat :=
  add32 (add32 (ssig1 (r.getD 1 0)) (r.getD 6 0))
        (add32 (ssig0 (r.getD 14 0)) (r.getD 15 0)) :: r

/-- Iterate the schedule extension `n` times. -/
def extendW : Nat → List Nat → List Nat
  | 0, r => r
  | n + 1, r => extendW n (schedStep r)

/-- The 64-entry message schedule of one 16-word block. -/
def schedule (block : List Nat) : List Nat :=
  (extendW 48 block.reverse).reverse

/-- One SHA-256 round, consuming a round constant and a schedule word. -/
def sha256Round (st : Hash8) (kw : Nat × Nat) : Hash8 :=
  let t1 := add32 st.h (add32 (bsig1 st.e)
    (add32 (chFn st.e st.f st.g) (add32 kw.1 kw.2)))
  let t2 := add32 (bsig0 st.a) (majFn st.a st.b st.c)
  ⟨add32 t1 t2, st.a, st.b, st.c, add32 st.d t1, st.e, st.f, st.g⟩

/-- The SHA-256 compression function on one 16-word block. -/
def compressBlock (st : Hash8) (block : List Nat) : Hash8 :=
  let z := (K.zip (schedule block)).foldl sha256Round st
  ⟨add32 st.a z.a, add32 st.b z.b, add32 st.c z.c, add32 st.d z.d,
   add32 st.e z.e, add32 st.f z.f, add32 st.g z.g, add32 st.h z.h⟩

/-- The four big-endian bytes of a 32-bit word. -/
def wordBytes (w : Nat) : List Nat :=
  [w / 16777216 % 256, w / 65536 % 256, w / 256 % 256, w % 256]

/-- The 32 digest bytes of a final hash state. -/
def hashBytes (st : Hash8) : List Nat :=
  [st.a, st.b, st.c, st.d, st.e, st.f, st.g, st.h].flatMap wordBytes

/-- SHA-256 of a byte list: pad, split into blocks, compress, serialise. -/
def sha256 (msg : List Nat) : List Nat :=
  hashBytes ((toBlocks (toWords (padMessage msg))).foldl compressBlock initH)

/-- The lowercase hex digit character for `n < 16`, as printed by Rust's
`{:x}` formatting. -/
def hexDigit (n : Nat) : Char :=
  if n < 10 then Char.ofNat (48 + n) else Char.ofNat (87 + n)

/-- Two lowercase hex digits per byte, as `{:x}` prints a byte slice. -/
def bytesToHex : List Nat → List Char
  | [] => []
  | b :: bs => hexDigit (b / 16) :: hexDigit (b % 16) :: bytesToHex bs

/-- Embedding of `calculate_hash` from `images.rs`: SHA-256 of the input
bytes, formatted as a lowercase hex string. -/
def calculate_hash (data : List Nat) : String :=
  String.mk (bytesToHex (sha256 data))

/-- Embedding of the `calculate_image_hash` command from `images.rs`: it
returns `Ok(calculate_hash(&data))` (`Result<String, String>` becomes
`Except String String`). -/
def calculate_image_hash (data : List Nat) : Except String String :=
  Except.ok (calculate_hash data)

/-! ### Content store, modelled from the spec

`lib.rs` registers a `store_image` command, but its body is not among the
source files; only its caller is.  The operation is therefore modelled
from the spec's description of `storeImage`/`storeOrGet`. -/

/-- Modelled from the spec: a `StoredImage` row of the content store
(`{id, hash, data, mime_type, size}`; `created_at` is outside the model). -/
structure ImageRow where
  id : Nat
  hash : String
  data : List Nat
  mime_type : String
  size : Nat

/-- Modelled from the spec: an `ImageReference` row linking a stored image
to a conversation. -/
structure RefRow where
  image_id : Nat
  conversation_id : String

/-- Modelled from the spec: the persistent state — stored images, image
references, and the next fresh image id. -/
structure Db where
  images : List ImageRow
  refs : List RefRow
  nextId : Nat

/-- Lookup of a stored image row by its hash. -/
def findByHash (rows : List ImageRow) (hsh : String) : Option ImageRow :=
  rows.find? (fun r => r.hash == hsh)

/-- Modelled from the spec: `addReference(imageId, conversationId)` with
insert-or-ignore semantics keyed on the unique pair. -/
def addReference (db : Db) (iid : Nat) (c : String) : Db :=
  if db.refs.any (fun x => x.image_id == iid && x.conversation_id == c) then db
  else ⟨db.images, db.refs ++ [⟨iid, c⟩], db.nextId⟩

/-- Modelled from the spec: the `store_image` command registered in
`lib.rs` whose body is not in the source files.  Per the spec it computes
`digest(data)`; if a row with that hash exists it returns the existing
metadata unchanged (the new call's bytes and mime type are discarded),
otherwise it inserts a new row with a fresh id; it also records the
conversation's reference as part of the same operation. -/
def store_image (db : Db) (data : List Nat) (mime c : String) :
    ImageRow × Db :=
  match findByHash db.images (calculate_hash data) with
  | some r => (r, addReference db r.id c)
  | none =>
      let r : ImageRow := ⟨db.nextId, calculate_hash data, data, mime, data.length⟩
      (r, addReference ⟨db.images ++ [r], db.refs, db.nextId + 1⟩ r.id c)

/-! ### Helper lemmas -/

/-- `addReference` never changes the image table. -/
theorem addReference_images (db : Db) (iid : Nat) (c : String) :
    (addReference db iid c).images = db.images := by
  unfold addReference
  split <;> rfl

/-- `find?` over an append when the first part has no match. -/
theorem find?_append_of_none {α : Type} {p : α → Bool} {l₁ l₂ : List α}
    (h : l₁.find? p = none) : (l₁ ++ l₂).find? p = l₂.find? p := by
  induction l₁ with
  | nil => rfl
  | cons a l ih =>
    rcases hpa : p a with _ | _
    · rw [List.find?_cons_of_neg _ (by simp [hpa])] at h
      rw [List.cons_append, List.find?_cons_of_neg _ (by simp [hpa])]
      exact ih h
    · rw [List.find?_cons_of_pos _ hpa] at h
      exact absurd h (by simp)

/-- After `store_image`, looking up the stored hash finds exactly the
returned row. -/
theorem store_image_find (db : Db) (b : List Nat) (m c : String) :
    findByHash (store_image db b m c).2.images (calculate_hash b) =
      some (store_image db b m c).1 := by
  unfold store_image
  rcases e : findByHash db.images (calculate_hash b) with _ | r
  · simp only [addReference_images]
    unfold findByHash at e ⊢
    rw [find?_append_of_none e]
    simp
  · simp only [addReference_images]
    exact e

/-- When the hash is already present, `store_image` returns the existing
row. -/
theorem store_image_found (db : Db) (b : List Nat) (m c : String)
    (r : ImageRow) (h : findByHash db.images (calculate_hash b) = some r) :
    (store_image db b m c).1 = r := by
  unfold store_image
  rw [h]

/-- The length of `bytesToHex` is twice the number of bytes. -/
theorem bytesToHex_length (bs : List Nat) :
    (bytesToHex bs).length = 2 * bs.length := by
  induction bs with
  | nil => rfl
  | cons b bs ih => simp [bytesToHex, ih]; ring

/-- For `n < 16`, `hexDigit n` is one of the sixteen lowercase hex
characters. -/
theorem hexDigit_mem {n : Nat} (h : n < 16) :
    hexDigit n ∈ ("0123456789abcdef").data := by
  interval_cases n <;> decide

/-- Every character printed for a list of bytes is a lowercase hex
character. -/
theorem bytesToHex_mem {bs : List Nat} (hb : ∀ b ∈ bs, b < 256) :
    ∀ c ∈ bytesToHex bs, c ∈ ("0123456789abcdef").data := by
  induction bs with
  | nil => intro c hc; cases hc
  | cons b bs ih =>
    intro c hc
    have hb256 : b < 256 := hb b (by simp)
    rcases hc with _ | ⟨_, hc⟩
    · exact hexDigit_mem (Nat.div_lt_of_lt_mul hb256)
    · rcases hc with _ | ⟨_, hc⟩
      · exact hexDigit_mem (Nat.mod_lt _ (by norm_num))
      · exact ih (fun x hx => hb x (by simp [hx])) c hc

/-- Every big-endian byte of a word is below 256. -/
theorem wordBytes_lt (w : Nat) : ∀ b ∈ wordBytes w, b < 256 := by
  intro b hb
  rcases hb with _ | ⟨_, _ | ⟨_, _ | ⟨_, _ | ⟨_, h⟩⟩⟩⟩ <;>
    first
      | exact Nat.mod_lt _ (by norm_num)
      | cases h

/-- The digest serialisation always yields 32 bytes. -/
theorem hashBytes_length (st : Hash8) : (hashBytes st).length = 32 := by
  simp [hashBytes, wordBytes]

/-- Every digest byte is below 256. -/
theorem hashBytes_lt (st : Hash8) : ∀ b ∈ hashBytes st, b < 256 := by
  intro b hb
  rw [hashBytes, List.mem_flatMap] at hb
  obtain ⟨w, _, hw⟩ := hb
  exact wordBytes_lt w b hw

/-! ### Claims -/

/-- C1, counterexample: the version-10 migration of `get_migrations` does
create a `migration_metadata` table, but its SQL contains no `version`,
`description` or `applied_at` column at all, so the claimed columns do not
exist. -/
theorem C1_counterexample_migration_metadata_columns :
    (migAt 9).version = 10 ∧
    sqlHasSub (migAt 9).sql "CREATE TABLE migration_metadata" = true ∧
    sqlHasSub (migAt 9).sql "applied_at" = false ∧
    sqlHasSub (migAt 9).sql "version" = false ∧
    sqlHasSub (migAt 9).sql "description" = false := by
  decide

/-- C1, amended: the migration with version 10 returned by
`get_migrations` creates a table named `migration_metadata` whose columns
are an autoincrement `id`, a unique `key`, a `value`, and
`created_at`/`updated_at` timestamps — not `version`/`description`/
`applied_at`. -/
theorem C1_migration_metadata_actual_schema :
    (migAt 9).version = 10 ∧
    (migAt 9).description = "create_migration_metadata_table" ∧
    sqlHasSub (migAt 9).sql "CREATE TABLE migration_metadata" = true ∧
    sqlHasSub (migAt 9).sql "id INTEGER PRIMARY KEY AUTOINCREMENT" = true ∧
    sqlHasSub (migAt 9).sql "key TEXT UNIQUE NOT NULL" = true ∧
    sqlHasSub (migAt 9).sql "value TEXT NOT NULL" = true ∧
    sqlHasSub (migAt 9).sql "created_at DATETIME DEFAULT CURRENT_TIMESTAMP" = true ∧
    sqlHasSub (migAt 9).sql "updated_at DATETIME DEFAULT CURRENT_TIMESTAMP" = true := by
  decide

/-- C2: the version-1 migration of `get_migrations` creates the `images`
table and declares its `hash` column `TEXT UNIQUE NOT NULL`, making the
hash the sole deduplication key. -/
theorem C2_images_hash_unique_not_null :
    (migAt 0).version = 1 ∧
    sqlHasSub (migAt 0).sql "CREATE TABLE images" = true ∧
    sqlHasSub (migAt 0).sql "hash TEXT UNIQUE NOT NULL" = true := by
  decide

/-- C3: the version-2 migration of `get_migrations` creates the
`image_references` table and declares the pair
`(image_id, conversation_id)` UNIQUE. -/
theorem C3_image_references_pair_unique :
    (migAt 1).version = 2 ∧
    sqlHasSub (migAt 1).sql "CREATE TABLE image_references" = true ∧
    sqlHasSub (migAt 1).sql "UNIQUE(image_id, conversation_id)" = true := by
  decide

/-- C4: the versions of the migrations returned by `get_migrations` form
the contiguous, strictly increasing sequence 1..12 — the k-th element of
the list has version k. -/
theorem C4_migration_versions_contiguous :
    get_migrations.map Migration.version =
      [1, 2, 3, 4, 5, 6, 7, 8, 9, 10, 11, 12] ∧
    get_migrations.length = 12 := by
  decide

/-- C5: the version-2 migration of `get_migrations` declares
`image_references.image_id` as a foreign key to `images (id)` with
`ON DELETE CASCADE`. -/
theorem C5_image_references_cascade :
    (migAt 1).version = 2 ∧
    sqlHasSub (migAt 1).sql
      "FOREIGN KEY (image_id) REFERENCES images (id) ON DELETE CASCADE" = true := by
  decide

/-- C6: `calculate_hash` is deterministic — on identical copies of a byte
sequence it returns identical digest strings. -/
theorem C6_calculate_hash_deterministic (b b' : List Nat) (h : b = b') :
    calculate_hash b = calculate_hash b' := by
  rw [h]

/-- C6, witness at the concrete input `[1, 2, 3]`. -/
theorem C6_calculate_hash_deterministic_witness :
    calculate_hash [1, 2, 3] = calculate_hash [1, 2, 3] :=
  C6_calculate_hash_deterministic [1, 2, 3] [1, 2, 3] rfl

/-- C7: for every byte sequence the digest string of `calculate_hash` is
exactly 64 characters long and each character is one of the lowercase hex
digits 0-9, a-f. -/
theorem C7_calculate_hash_hex64 (data : List Nat) :
    (calculate_hash data).length = 64 ∧
    ∀ c ∈ (calculate_hash data).data, c ∈ ("0123456789abcdef").data := by
  constructor
  · show (bytesToHex (sha256 data)).length = 64
    rw [bytesToHex_length, sha256, hashBytes_length]
  · intro c hc
    exact bytesToHex_mem (hashBytes_lt _) c hc

/-- C7, witness at the concrete input `[1, 2, 3]`, whose digest starts
with the character 0. -/
theorem C7_calculate_hash_hex64_witness :
    (calculate_hash [1, 2, 3]).length = 64 ∧
    Char.ofNat 48 ∈ ("0123456789abcdef").data :=
  ⟨(C7_calculate_hash_hex64 [1, 2, 3]).1,
   (C7_calculate_hash_hex64 [1, 2, 3]).2 (Char.ofNat 48) (by decide)⟩

/-- C8: `calculate_image_hash` is total and never fails — on every input
byte vector it returns `Ok (calculate_hash input)` and never an error. -/
theorem C8_calculate_image_hash_total (data : List Nat) :
    calculate_image_hash data = Except.ok (calculate_hash data) ∧
    ∀ e : String, calculate_image_hash data ≠ Except.error e := by
  refine ⟨rfl, fun e h => ?_⟩
  exact Except.noConfusion h

/-- C8, witness at the empty input. -/
theorem C8_calculate_image_hash_total_witness :
    calculate_image_hash [] = Except.ok (calculate_hash []) ∧
    calculate_image_hash [] ≠ Except.error "storage error" :=
  ⟨(C8_calculate_image_hash_total []).1,
   (C8_calculate_image_hash_total []).2 "storage error"⟩

/-- C9 (store modelled from the spec): storing the same bytes twice —
with any mime types and conversation ids, from any starting state —
returns a second row with the same id, data, mime type and size as the
first. -/
theorem C9_store_image_dedup (db : Db) (b : List Nat) (m m' c c' : String) :
    (store_image (store_image db b m c).2 b m' c').1.id =
      (store_image db b m c).1.id ∧
    (store_image (store_image db b m c).2 b m' c').1.data =
      (store_image db b m c).1.data ∧
    (store_image (store_image db b m c).2 b m' c').1.mime_type =
      (store_image db b m c).1.mime_type ∧
    (store_image (store_image db b m c).2 b m' c').1.size =
      (store_image db b m c).1.size := by
  have h2 := store_image_found (store_image db b m c).2 b m' c'
    (store_image db b m c).1 (store_image_find db b m c)
  rw [h2]
  exact ⟨rfl, rfl, rfl, rfl⟩

/-- C10: `calculate_hash` of the empty byte sequence is the SHA-256
digest of empty input, and `calculate_image_hash` of an empty vector
returns `Ok` of the same string. -/
theorem C10_empty_input_digest :
    calculate_hash [] =
      "e3b0c44298fc1c149afbf4c8996fb92427ae41e4649b934ca495991b7852b855" ∧
    calculate_image_hash [] =
      Except.ok
        "e3b0c44298fc1c149afbf4c8996fb92427ae41e4649b934ca495991b7852b855" := by
  have h : calculate_hash [] =
      "e3b0c44298fc1c149afbf4c8996fb92427ae41e4649b934ca495991b7852b855" := by
    decide
  exact ⟨h, by rw [calculate_image_hash, h]⟩

end Chatalyst
